import Mathlib

/-!
Verification development for the training-loop controller in `src/trainer.py`
(pytorch-training-utilities).  The Python source is shallowly embedded: pure
helpers become Lean functions, the per-tick mutation of the loop's state
becomes explicit state passing, and the one uncaught exception the loop can
raise (tuple unpacking of a multi-`@` command) becomes an `Except` error.

The external collaborators (the `Engines` object, the data loader, the
`SummaryWriter`) are not part of the repository's files; where their behaviour
matters it is modelled from the spec, which is noted at each definition.
Logging-only branches of the source (`event show`, the `time` estimate) touch
no state and are therefore not tracked in the loop state.
-/

/- ### Python string helpers used by the source -/

/-- Model of Python `command.split("@")` for the single-character separator
used at trainer.py line 178: splits into the (possibly empty) chunks between
occurrences of the separator.  Matches CPython: an input without the separator
gives a singleton list, and consecutive separators give empty chunks. -/
def splitOnChar (c : Char) : List Char → List (List Char)
  | [] => [[]]
  | a :: rest =>
    match splitOnChar c rest with
    | [] => [[]]
    | g :: gs => if a = c then [] :: g :: gs else (a :: g) :: gs

/-- Python `s.split("@")` on a string, as a list of strings. -/
def pySplitAt (s : String) (c : Char) : List String :=
  (splitOnChar c s.data).map String.mk

/-- Whitespace stripped by Python `int(...)` from both ends of its argument. -/
def isPySpace (c : Char) : Bool :=
  c = ' ' || c = '\t' || c = '\n' || c = '\r'

/-- Strip leading and trailing whitespace, as Python `int(...)` does. -/
def stripChars (l : List Char) : List Char :=
  ((l.dropWhile isPySpace).reverse.dropWhile isPySpace).reverse

/-- Numeric value of a list of decimal digit characters. -/
def digitsVal (l : List Char) : Nat :=
  l.foldl (fun acc c => acc * 10 + (c.toNat - 48)) 0

/-- Parse a nonempty all-digit character list, else fail. -/
def parseDigits (l : List Char) : Option Nat :=
  if l.isEmpty then none
  else if l.all Char.isDigit then some (digitsVal l)
  else none

/-- Model of Python `int(s)` as used at trainer.py line 180 (and 202):
optional surrounding whitespace, an optional single sign, then decimal digits;
anything else raises `ValueError`, modelled as `none`.  Negative numbers parse
successfully, which is what the source relies on.  (CPython additionally
accepts underscores between digits and non-ASCII digits; no claim depends on
those inputs, so they are left unparsed here.) -/
def pythonInt (s : String) : Option Int :=
  match stripChars s.data with
  | '-' :: rest => (parseDigits rest).map (fun n => -(n : Int))
  | '+' :: rest => (parseDigits rest).map (fun n => (n : Int))
  | t => (parseDigits t).map (fun n => (n : Int))

/- ### The event schedule (trainer.py lines 146, 177-196) -/

/-- An entry of the `events` list of `train`: the pair `(what, int(when))`
appended at trainer.py line 180.  The trigger is an `Int` because Python's
`int(when)` accepts negative values. -/
abbrev Event := String × Int

/-- Line 187: `events = [e for e in events if e[1] >= engines.global_step]`.
Keeps the events whose trigger has not passed; the current iteration is a
natural number (the engines' global step). -/
def pruneEvents (events : List Event) (step : Nat) : List Event :=
  events.filter (fun e => decide ((step : Int) ≤ e.2))

/-- The events selected by the comprehension at line 188:
`[e for e in events if e[1] == engines.global_step]`. -/
def firingEvents (events : List Event) (step : Nat) : List Event :=
  events.filter (fun e => decide (e.2 = (step : Int)))

/-- Line 188: the commands extracted (`e[0]`) from the events firing now. -/
def firingCommands (events : List Event) (step : Nat) : List String :=
  (firingEvents events step).map Prod.fst

/-- Lines 179-183: `try: events.append((what, int(when))) except: log`.
A failed `int(when)` is caught and logged, leaving the list unchanged;
a successful parse appends (duplicates allowed). -/
def tryRegister (what whenStr : String) (events : List Event) : List Event :=
  match pythonInt whenStr with
  | some n => events ++ [(what, n)]
  | none => events

/-- The only uncaught exception the tick body can raise on an operator input:
line 178's `what, when = command.split("@")` raises `ValueError` when the
split does not have exactly two parts, and that statement is outside the
`try` block. -/
inductive TickError
  | unpackError
  deriving DecidableEq, Repr

/-- Lines 177-184: the `if "@" in command:` block.  Without an `@` the command
passes through untouched.  With an `@`, the two-part unpacking feeds
`tryRegister` and the live command becomes `""`; a split with three or more
parts raises the uncaught `ValueError` (tuple unpacking), aborting the tick. -/
def handleEventRegistration (command : String) (events : List Event) :
    Except TickError (String × List Event) :=
  match pySplitAt command '@' with
  | [_] => Except.ok (command, events)
  | [what, whenStr] => Except.ok ("", tryRegister what whenStr events)
  | _ => Except.error TickError.unpackError

/- ### Configuration and the per-command policies (lines 190-259) -/

/-- The configuration fields `train` reads.  `save_ckpt_every = 0` models a
falsy (absent) value, making line 209's `or` fall back to `eval_every`.
The fields themselves live in the external `Config` class; their meaning here
is exactly how trainer.py uses them. -/
structure Cfg where
  max_iter : Nat
  save_ckpt_every : Nat
  eval_every : Nat
  save_on_quit : Bool
  deriving DecidableEq, Repr

/-- Line 209: `save_ckpt_every = cfg.save_ckpt_every or cfg.eval_every`. -/
def effectiveSaveEvery (cfg : Cfg) : Nat :=
  if cfg.save_ckpt_every = 0 then cfg.eval_every else cfg.save_ckpt_every

/-- Lines 211-214: `saving_commands = ["save"]`, extended with `"quit"` when
`cfg.save_on_quit` is set. -/
def savingCommands (cfg : Cfg) : List String :=
  if cfg.save_on_quit then ["save", "quit"] else ["save"]

/-- Line 216: the condition guarding `engines.save_checkpoint`.  It is the
cadence test and the saving commands, plus the hard-coded debug disjuncts
`engines.global_step == 100 or ... == 300 or ... == 500` that the source
itself marks `TODO last condition is for debugging, remove it later`. -/
def ckptTrigger (cfg : Cfg) (step : Nat) (command : String) : Bool :=
  decide (step % effectiveSaveEvery cfg = 0)
    || decide (command ∈ savingCommands cfg)
    || decide (step = 100) || decide (step = 300) || decide (step = 500)

/-- Lines 220-221: the checkpoint tag `ckpt_<global_step // save_ckpt_every>`. -/
def ckptTag (cfg : Cfg) (step : Nat) : String :=
  "ckpt_" ++ toString (step / effectiveSaveEvery cfg)

/-- Line 253: `engines.global_step % cfg.eval_every == 0 or command in ["eval"]`. -/
def evalTrigger (cfg : Cfg) (step : Nat) (command : String) : Bool :=
  decide (step % cfg.eval_every = 0) || decide (command = "eval")

/- ### The loop state and one tick (lines 164-259) -/

/-- The mutable state of one `train` run that the claims observe: the engines'
iteration counter, the pending `events` list, and counters or transcripts of
the observable effects (batches pulled from the infinite iterator, writer
flushes, checkpoints saved with their tags, evaluation triggers). -/
structure LoopState where
  step : Nat
  events : List Event
  batchesFetched : Nat
  flushes : Nat
  checkpoints : List (Nat × String)
  evals : Nat
  deriving DecidableEq, Repr

/-- Lines 190-259: the `for command in commands:` body, folded over the
command list.  Per command, in source order: `event show`/`event` only log;
`event clear` empties the schedule; the `time` branch only logs; the
checkpoint condition appends a save; the evaluation condition triggers an
evaluation; `quit` returns from `train` at once, skipping the remaining
commands (the returned flag records that).  Result: the events list, the
checkpoint transcript, the evaluation count, and whether `quit` returned. -/
def processCommands (cfg : Cfg) (step : Nat) :
    List String → List Event → List (Nat × String) → Nat →
    List Event × List (Nat × String) × Nat × Bool
  | [], events, ckpts, evals => (events, ckpts, evals, false)
  | c :: rest, events, ckpts, evals =>
    let events := if c = "event clear" then [] else events
    let ckpts := if ckptTrigger cfg step c then ckpts ++ [(step, ckptTag cfg step)] else ckpts
    let evals := if evalTrigger cfg step c then evals + 1 else evals
    if c = "quit" then (events, ckpts, evals, true)
    else processCommands cfg step rest events ckpts evals

/-- One tick of the training loop, lines 168-259, for an already-fetched
batch: `engines.step` advances the iteration counter (modelled from the spec:
the counter is advanced by exactly one unit per successful step; the engines
live outside this repository), the writer is flushed once (line 171), the
operator input is handled as a possible event registration (lines 175-184,
which can raise the uncaught unpacking error), the schedule is pruned and the
tick's command set is built (lines 187-188), and the commands are processed.
Returns the new state and whether `quit` returned from `train`. -/
def runTick (cfg : Cfg) (input : String) (s : LoopState) :
    Except TickError (LoopState × Bool) :=
  match handleEventRegistration input s.events with
  | Except.error er => Except.error er
  | Except.ok (command, events0) =>
    let step := s.step + 1
    let events1 := pruneEvents events0 step
    let commands := command :: firingCommands events1 step
    let r := processCommands cfg step commands events1 s.checkpoints s.evals
    Except.ok ({ s with
      step := step
      flushes := s.flushes + 1
      events := r.1
      checkpoints := r.2.1
      evals := r.2.2.1 }, r.2.2.2)

/-- How one run of the loop ended: the `break` at line 166 (maximum iteration
reached), the `return` at line 259 (a `quit` command), or the model's fuel
running out (never reached when enough fuel is supplied). -/
inductive ExitKind
  | maxIter
  | quitCmd
  | fuelOut
  deriving DecidableEq, Repr

/-- Lines 164-259: `for batch in _make_infinite_epochs(train_dl):`.  Each
round first pulls a batch (Python's `for` fetches before the body runs), then
checks `engines.global_step >= cfg.max_iter` and breaks, else runs the tick
with this round's operator input.  `inputs t` is what `_non_blocking_input()`
returns on tick `t` (constantly a single space in the current source); `fuel`
bounds the rounds so the function terminates in Lean. -/
def runLoop (cfg : Cfg) (inputs : Nat → String) :
    Nat → Nat → LoopState → Except TickError (LoopState × ExitKind)
  | 0, _, s => Except.ok (s, ExitKind.fuelOut)
  | fuel + 1, t, s =>
    let sB := { s with batchesFetched := s.batchesFetched + 1 }
    if cfg.max_iter ≤ sB.step then Except.ok (sB, ExitKind.maxIter)
    else
      match runTick cfg (inputs t) sB with
      | Except.error er => Except.error er
      | Except.ok (s1, true) => Except.ok (s1, ExitKind.quitCmd)
      | Except.ok (s1, false) => runLoop cfg inputs fuel (t + 1) s1

/-- The loop state at entry of the `for` loop: the engines resume at
`step0`, no events are pending and nothing has been fetched, flushed or
saved yet. -/
def initState (step0 : Nat) : LoopState :=
  { step := step0, events := [], batchesFetched := 0, flushes := 0
    checkpoints := [], evals := 0 }

/-- The tail of `train` (lines 164-262): run the loop and, when it ends by
`break` (maximum iteration), perform line 262's final `_writer.flush()`.
The `return` paths at lines 156 and 259 leave the function without reaching
that statement.  (The pre-loop block at lines 151-157 never fires in the
current source because `_non_blocking_input` returns a constant single space,
which is none of `eval`, `eval_quit`, `quit`.) -/
def runTrain (cfg : Cfg) (inputs : Nat → String) (fuel step0 : Nat) :
    Except TickError (LoopState × ExitKind) :=
  match runLoop cfg inputs fuel 0 (initState step0) with
  | Except.ok (s, ExitKind.maxIter) =>
      Except.ok ({ s with flushes := s.flushes + 1 }, ExitKind.maxIter)
  | r => r

/- ### The operator input surface (trainer.py lines 88-107) -/

/-- Lines 88-107: `_non_blocking_input`.  The stdin-select, read and
`broadcast_object_list` logic is entirely commented out in the source
(marked deprecated because it does not work under slurm's sbatch); the live
body is `_command = " "; return _command`.  The parameter stands for the
single-line text the operator may have pending on stdin; the source never
reads it, so the result is the constant single-space string on every rank. -/
def nonBlockingInput (_operatorLine : Option String) : String := " "

/- ### The infinite epoch iterator (trainer.py lines 110-113) -/

/-- One token emitted while consuming `_make_infinite_epochs(dl)`: either the
pass-boundary notification (the log line `New epoch starts.` at line 112) or
a yielded batch. -/
inductive Tok (α : Type)
  | newEpoch
  | batch (a : α)
  deriving DecidableEq, BEq, Repr

/-- The emission trace of `_make_infinite_epochs(dl)` while `n` items are
pulled, starting with `rem` left of the current pass.  When the current pass
is exhausted the generator re-enters `while True`, logs the pass-boundary
notification and yields the first item of the source within the same pull.
An empty source makes the Python generator log forever without yielding, so
no items can be pulled from it; the trace of pulls is then empty. -/
def epochsPull (dl : List α) : Nat → List α → List (Tok α)
  | 0, _ => []
  | n + 1, [] =>
    match dl with
    | [] => []
    | d :: ds => Tok.newEpoch :: Tok.batch d :: epochsPull dl n ds
  | n + 1, a :: rest => Tok.batch a :: epochsPull dl n rest

/-- Lines 110-113: `_make_infinite_epochs(dl)`, observed as the trace of log
notifications and yielded items while the first `n` items are pulled. -/
def makeInfiniteEpochs (dl : List α) (n : Nat) : List (Tok α) :=
  epochsPull dl n []

/- ### The module accessors (trainer.py lines 29-56) -/

/-- The engines object as far as the accessors observe it: its `global_step`
and `cfg` properties (the class itself lives outside this repository). -/
structure EnginesState where
  global_step : Nat
  cfg : Cfg
  deriving DecidableEq, Repr

/-- The module-level globals of trainer.py: `_engines` (annotated at line 30,
assigned only inside `train`) and `_command` (annotated at line 31 and never
assigned: the `global _command` statement in `_non_blocking_input` is
commented out).  `none` models a name that is not yet bound, so that reading
it raises `NameError`. -/
structure TrainerGlobals where
  engines : Option EnginesState
  command : Option String
  deriving DecidableEq, Repr

/-- The globals before `train` is called: neither name is bound. -/
def initialGlobals : TrainerGlobals :=
  { engines := none, command := none }

/-- The error message of the `RuntimeError` raised at lines 46 and 53. -/
def notSetupMsg : String :=
  "Trainer has not been setup. Have you called trainer.train?"

/-- Lines 35-39: `get_global_step` returns `_engines.global_step`, and any
exception (the `NameError` when `_engines` is unbound) is swallowed into
`None`. -/
def get_global_step (g : TrainerGlobals) : Option Nat :=
  match g.engines with
  | some e => some e.global_step
  | none => none

/-- Line 56: `get_iteration = get_global_step`. -/
def get_iteration : TrainerGlobals → Option Nat :=
  get_global_step

/-- Lines 42-46: `get_cfg` returns `_engines.cfg`, re-raising the unbound
case as a `RuntimeError` with the not-setup message. -/
def get_cfg (g : TrainerGlobals) : Except String Cfg :=
  match g.engines with
  | some e => Except.ok e.cfg
  | none => Except.error notSetupMsg

/-- Lines 49-53: `get_cmd` returns `_command`, re-raising the unbound case as
a `RuntimeError` with the not-setup message. -/
def get_cmd (g : TrainerGlobals) : Except String String :=
  match g.command with
  | some c => Except.ok c
  | none => Except.error notSetupMsg

/- ### Concrete configurations and runs used by the claim theorems -/

/-- A configuration with checkpoint cadence 3 (evaluation cadence 7, maximum
1000, no save-on-quit), used to exercise the checkpoint trigger. -/
def cfgCadence3 : Cfg := ⟨1000, 3, 7, false⟩

/-- A small configuration (maximum 10, both cadences 3, no save-on-quit). -/
def cfgSmall : Cfg := ⟨10, 3, 3, false⟩

/-- A configuration whose maximum iteration is already reached at entry. -/
def cfgMaxZero : Cfg := ⟨0, 3, 3, false⟩

/-- An operator stream that never supplies a command: the constant value of
`_non_blocking_input` in the current source. -/
def silentInputs : Nat → String := fun _ => " "

/-- An operator stream supplying `quit` on the first tick and nothing after. -/
def quitFirstInputs : Nat → String := fun t => if t = 0 then "quit" else " "

/-- The final state of the run of `cfgMaxZero` under `silentInputs`: one
batch fetched, no tick run, one (post-loop) flush. -/
def stateMaxZero : LoopState := ⟨0, [], 1, 1, [], 0⟩

/-- The final state of the run of `cfgSmall` under `quitFirstInputs`: one
tick ran (one batch, one in-tick flush), then `quit` returned. -/
def stateQuit : LoopState := ⟨1, [], 1, 1, [], 0⟩

/- ### Helper lemmas about one tick and the loop -/

/-- A tick that does not abort advances the iteration counter by exactly one,
flushes the writer exactly once, and fetches no batch itself. -/
theorem runTick_ok (cfg : Cfg) (input : String) (s s' : LoopState) (q : Bool)
    (h : runTick cfg input s = Except.ok (s', q)) :
    s'.step = s.step + 1 ∧ s'.flushes = s.flushes + 1 ∧
      s'.batchesFetched = s.batchesFetched := by
  unfold runTick at h
  cases hreg : handleEventRegistration input s.events with
  | error er => rw [hreg] at h; cases h
  | ok p =>
    obtain ⟨command, events0⟩ := p
    rw [hreg] at h
    simp only [Except.ok.injEq, Prod.mk.injEq] at h
    obtain ⟨hs, -⟩ := h
    subst hs
    exact ⟨rfl, rfl, rfl⟩

/-- Accounting along a run of the loop: the iteration counter never
decreases, each completed tick pulls one batch and flushes once, and the
exit through the maximum-iteration check pulls one further batch that no
tick consumes. -/
theorem runLoop_counts (cfg : Cfg) (inputs : Nat → String) :
    ∀ (fuel t : Nat) (s s' : LoopState) (ek : ExitKind),
      runLoop cfg inputs fuel t s = Except.ok (s', ek) →
      s.step ≤ s'.step ∧
      s'.batchesFetched = s.batchesFetched + (s'.step - s.step) +
        (if ek = ExitKind.maxIter then 1 else 0) ∧
      s'.flushes = s.flushes + (s'.step - s.step) := by
  intro fuel
  induction fuel with
  | zero =>
    intro t s s' ek h
    simp only [runLoop, Except.ok.injEq, Prod.mk.injEq] at h
    obtain ⟨hs, he⟩ := h
    subst hs; subst he
    simp
  | succ fuel ih =>
    intro t s s' ek h
    simp only [runLoop] at h
    split at h
    · simp only [Except.ok.injEq, Prod.mk.injEq] at h
      obtain ⟨hs, he⟩ := h
      subst hs; subst he
      simp
    · cases htick : runTick cfg (inputs t) { s with batchesFetched := s.batchesFetched + 1 } with
      | error er => rw [htick] at h; cases h
      | ok p =>
        obtain ⟨s1, q⟩ := p
        obtain ⟨hstep, hflush, hbatch⟩ :=
          runTick_ok cfg (inputs t) _ s1 q htick
        simp only at hstep hflush hbatch
        rw [htick] at h
        cases q with
        | true =>
          simp only [Except.ok.injEq, Prod.mk.injEq] at h
          obtain ⟨hs, he⟩ := h
          subst hs; subst he
          refine ⟨by omega, ?_, by omega⟩
          simp only [reduceCtorEq, if_false]
          omega
        | false =>
          obtain ⟨h1, h2, h3⟩ := ih (t + 1) s1 s' ek h
          refine ⟨by omega, ?_, by omega⟩
          rcases ek with - | - | - <;> simp_all <;> omega

/- ### Helper lemmas about the infinite epoch iterator -/

/-- Pulling first exhausts the remainder of the current pass, yielding its
items in order with no notification. -/
theorem epochsPull_consume (dl : List α) :
    ∀ (rem : List α) (k : Nat),
      epochsPull dl (rem.length + k) rem =
        rem.map Tok.batch ++ epochsPull dl k [] := by
  intro rem
  induction rem with
  | nil => intro k; simp
  | cons a rest ih =>
    intro k
    have hn : rest.length + 1 + k = (rest.length + k) + 1 := by omega
    simp only [List.length_cons, hn, epochsPull, List.map_cons, List.cons_append]
    rw [ih k]

/-- Pulling a full pass from a nonempty exhausted source emits the
pass-boundary notification, then the whole source in order, then continues
with a fresh exhausted state. -/
theorem epochsPull_wrap (d : α) (ds : List α) (m : Nat) :
    epochsPull (d :: ds) (ds.length + 1 + m) [] =
      Tok.newEpoch :: Tok.batch d ::
        (ds.map Tok.batch ++ epochsPull (d :: ds) m []) := by
  have hn : ds.length + 1 + m = (ds.length + m) + 1 := by omega
  rw [hn]
  simp only [epochsPull]
  rw [epochsPull_consume (d :: ds) ds m]

/- ### Claim C1 -/

/-- Claim C1: the checkpoint trigger was claimed to fire exactly at the
positive multiples of the cadence when no save or quit command is issued.
The source contradicts its own TODO note (line 217): with cadence 3 and the
constant no-op command of `_non_blocking_input`, the trigger fires at
iteration 100 through the hard-coded debug disjunct, although 100 is not a
multiple of 3 and the command is not a saving command. -/
theorem checkpoint_fires_at_debug_iteration :
    ckptTrigger cfgCadence3 100 " " = true ∧
    ¬ (100 % 3 = 0) ∧
    " " ∉ savingCommands cfgCadence3 := by decide

/- ### Claim C2 -/

/-- Claim C2, counterexample: the tick's command is not the value the
operator supplied.  With the operator line being the literal text of the
save command, the processed command differs from it, because the read and
broadcast logic of `_non_blocking_input` is commented out. -/
theorem command_not_operator_value :
    nonBlockingInput (some "save") ≠ "save" := by decide

/-- Claim C2, amended: on every tick the command processed is the constant
single-space string, whatever the operator has pending, so all ranks
trivially process the same value — but that value is never the operator's
input and no broadcast takes place. -/
theorem command_is_constant_space (l1 l2 : Option String) :
    nonBlockingInput l1 = " " ∧ nonBlockingInput l1 = nonBlockingInput l2 :=
  ⟨rfl, rfl⟩

/- ### Claim C3 -/

/-- Claim C3: parse failures during event registration were claimed never to
abort the tick.  The tuple unpacking at line 178 sits outside the `try`
block, so an operator input with two `@` signs raises an uncaught
`ValueError` and aborts the tick (and with it the loop): the whole tick
evaluates to the unpacking error. -/
theorem unpack_aborts_tick :
    runTick cfgSmall "save@3@4" (initState 0) = Except.error TickError.unpackError ∧
    handleEventRegistration "save@3@4" [] = Except.error TickError.unpackError :=
  ⟨rfl, rfl⟩

/- ### Claim C4 -/

/-- Claim C4, counterexample: an event firing at the current iteration is
not removed from the pending schedule within its own tick.  At iteration 5
the event with trigger 5 contributes its command to the tick's command set,
yet it is still a member of the pruned (still-pending) list that this tick's
command processing observes. -/
theorem fired_event_still_pending_same_tick :
    ("x", (5 : Int)) ∈ pruneEvents [("x", 5)] 5 ∧
    "x" ∈ firingCommands (pruneEvents [("x", 5)] 5) 5 := by decide

/-- Claim C4, amended: a registered event whose trigger equals the current
iteration fires in that tick (its command is in the fired command set) and
never fires again — at any later iteration the event is pruned before the
firing commands are computed.  However it is not removed within its own
tick: it remains in the pruned pending list during that tick's command
processing and disappears only at the next tick's resolve. -/
theorem event_fires_once_pruned_next_tick (es : List Event) (ev : Event)
    (t t' : Nat) (hmem : ev ∈ es) (htrig : ev.2 = (t : Int)) (hlt : t < t') :
    ev ∈ pruneEvents es t ∧
    ev.1 ∈ firingCommands (pruneEvents es t) t ∧
    ev ∉ pruneEvents (pruneEvents es t) t' ∧
    ev ∉ firingEvents (pruneEvents (pruneEvents es t) t') t' := by
  have h1 : ev ∈ pruneEvents es t := by
    simp only [pruneEvents, List.mem_filter, decide_eq_true_eq]
    exact ⟨hmem, le_of_eq htrig.symm⟩
  have h3 : ev ∉ pruneEvents (pruneEvents es t) t' := by
    simp only [pruneEvents, List.mem_filter, decide_eq_true_eq]
    rintro ⟨-, hle⟩
    rw [htrig] at hle
    omega
  refine ⟨h1, ?_, h3, fun hc => h3 (List.mem_filter.mp hc).1⟩
  simp only [firingCommands, firingEvents, List.mem_map, List.mem_filter,
    decide_eq_true_eq]
  exact ⟨ev, ⟨h1, htrig⟩, rfl⟩

/-- Claim C4, witness: the amended theorem applied to the single event with
trigger 5, at iteration 5 and the following iteration 6. -/
theorem event_fires_once_pruned_next_tick_works :
    ("x", (5 : Int)) ∈ [(("x" : String), (5 : Int))] ∧
    (("x", (5 : Int)) : Event).2 = ((5 : Nat) : Int) ∧ 5 < 6 ∧
    (("x", (5 : Int)) ∈ pruneEvents [("x", 5)] 5 ∧
     "x" ∈ firingCommands (pruneEvents [("x", 5)] 5) 5 ∧
     ("x", (5 : Int)) ∉ pruneEvents (pruneEvents [("x", 5)] 5) 6 ∧
     ("x", (5 : Int)) ∉ firingEvents (pruneEvents (pruneEvents [("x", 5)] 5) 6) 6) :=
  ⟨by decide, by decide, by decide,
    event_fires_once_pruned_next_tick [("x", 5)] ("x", 5) 5 6
      (by decide) (by decide) (by decide)⟩

/- ### Claim C5 -/

/-- Claim C5, counterexample: with the maximum iteration already reached at
loop entry (maximum 0, counter 0) the claim demands that no batch be pulled,
but the run pulls exactly one batch before breaking, because Python's `for`
statement fetches from the iterator before the body's check runs. -/
theorem batch_fetched_at_max_iteration :
    runTrain cfgMaxZero silentInputs 5 0 = Except.ok (stateMaxZero, ExitKind.maxIter) ∧
    ¬ (stateMaxZero.batchesFetched = 0) :=
  ⟨rfl, by decide⟩

/-- Claim C5, amended: the maximum-iteration check runs at the top of the
tick body but after the `for` statement has already fetched the next batch.
Over any run, the number of batches pulled equals the number of training
steps performed, plus exactly one extra, unconsumed batch when the loop
exits through the maximum-iteration check (a quit exit fetches no extra
batch). -/
theorem batches_fetched_on_exit (cfg : Cfg) (inputs : Nat → String)
    (fuel step0 : Nat) (s' : LoopState) (ek : ExitKind)
    (h : runTrain cfg inputs fuel step0 = Except.ok (s', ek)) :
    s'.batchesFetched = (s'.step - step0) +
      (if ek = ExitKind.maxIter then 1 else 0) := by
  unfold runTrain at h
  cases hr : runLoop cfg inputs fuel 0 (initState step0) with
  | error er => rw [hr] at h; cases h
  | ok p =>
    obtain ⟨s1, ek1⟩ := p
    obtain ⟨h1, h2, h3⟩ := runLoop_counts cfg inputs fuel 0 (initState step0) s1 ek1 hr
    rw [hr] at h
    simp only [initState] at h1 h2 h3
    rcases ek1 with - | - | - <;>
      simp only [Except.ok.injEq, Prod.mk.injEq] at h <;>
      obtain ⟨hs, he⟩ := h <;> subst hs <;> subst he <;> simp_all

/-- Claim C5, witness: the amended theorem applied to the run with maximum
iteration 0, where one batch is fetched and no training step runs. -/
theorem batches_fetched_on_exit_works :
    stateMaxZero.batchesFetched =
      (stateMaxZero.step - 0) + (if ExitKind.maxIter = ExitKind.maxIter then 1 else 0) :=
  batches_fetched_on_exit cfgMaxZero silentInputs 5 0 stateMaxZero ExitKind.maxIter rfl

/- ### Claim C6 -/

/-- Claim C6, counterexample: a run stopped by the quit command.  The single
tick flushes the writer once; the claim demands one further flush after the
loop ends (two in total), but `train` returns from inside the loop at line
259 without reaching line 262, so the total stays one. -/
theorem quit_skips_final_flush :
    runTrain cfgSmall quitFirstInputs 5 0 = Except.ok (stateQuit, ExitKind.quitCmd) ∧
    ¬ (stateQuit.flushes = 1 + 1) :=
  ⟨rfl, by decide⟩

/-- Claim C6, amended: the telemetry sink is flushed once per tick, and the
extra post-loop flush of line 262 happens only when the loop exits by
reaching the maximum iteration; an exit through the quit command returns
from inside the loop and performs no extra flush, leaving the flush count
equal to the number of completed ticks. -/
theorem flushes_on_exit (cfg : Cfg) (inputs : Nat → String)
    (fuel step0 : Nat) (s' : LoopState) (ek : ExitKind)
    (h : runTrain cfg inputs fuel step0 = Except.ok (s', ek)) :
    s'.flushes = (s'.step - step0) +
      (if ek = ExitKind.maxIter then 1 else 0) := by
  unfold runTrain at h
  cases hr : runLoop cfg inputs fuel 0 (initState step0) with
  | error er => rw [hr] at h; cases h
  | ok p =>
    obtain ⟨s1, ek1⟩ := p
    obtain ⟨h1, h2, h3⟩ := runLoop_counts cfg inputs fuel 0 (initState step0) s1 ek1 hr
    rw [hr] at h
    simp only [initState] at h1 h2 h3
    rcases ek1 with - | - | - <;>
      simp only [Except.ok.injEq, Prod.mk.injEq] at h <;>
      obtain ⟨hs, he⟩ := h <;> subst hs <;> subst he <;> simp_all

/-- Claim C6, witness: the amended theorem applied to the quit-stopped run,
whose flush count is the one per-tick flush with no post-loop flush. -/
theorem flushes_on_exit_works :
    stateQuit.flushes =
      (stateQuit.step - 0) + (if ExitKind.quitCmd = ExitKind.maxIter then 1 else 0) :=
  flushes_on_exit cfgSmall quitFirstInputs 5 0 stateQuit ExitKind.quitCmd rfl

/- ### Claim C7 -/

/-- Claim C7: an event whose trigger iteration is strictly below the current
iteration at resolve time is silently dropped: it is neither in the pruned
still-pending list nor among the events firing this tick. -/
theorem stale_event_dropped (es : List Event) (ev : Event) (t : Nat)
    (hst : ev.2 < (t : Int)) :
    ev ∉ pruneEvents es t ∧ ev ∉ firingEvents (pruneEvents es t) t := by
  have h1 : ev ∉ pruneEvents es t := by
    simp only [pruneEvents, List.mem_filter, decide_eq_true_eq]
    rintro ⟨-, hle⟩
    omega
  exact ⟨h1, fun hc => h1 (List.mem_filter.mp hc).1⟩

/-- Claim C7, witness: the event with trigger 1 resolved at iteration 2 is
neither pending nor firing. -/
theorem stale_event_dropped_works :
    ((("x" : String), (1 : Int)) : Event).2 < ((2 : Nat) : Int) ∧
    (("x", (1 : Int)) ∉ pruneEvents [("x", 1)] 2 ∧
     ("x", (1 : Int)) ∉ firingEvents (pruneEvents [("x", 1)] 2) 2) :=
  ⟨by decide, stale_event_dropped [("x", 1)] ("x", 1) 2 (by decide)⟩

/- ### Claim C8 -/

/-- Claim C8, counterexample: for the source of length 2, pulling 3·2+2 = 8
items emits the pass-boundary notification four times, not three — the two
extra items begin a fourth pass, which is announced before item 3·2+1. -/
theorem four_epoch_notifications :
    (makeInfiniteEpochs [0, 1] (3 * 2 + 2)).count (Tok.newEpoch : Tok Nat) = 4 ∧
    ¬ ((makeInfiniteEpochs [0, 1] (3 * 2 + 2)).count (Tok.newEpoch : Tok Nat) = 3) := by
  decide

/-- Claim C8, amended: wrapping a finite ordered source of length at least
two, pulling 3L+2 items yields the source's items in order without skipping
or duplication — three full passes followed by the first two items again —
and the pass-boundary notification is emitted four times, immediately before
items 1, L+1, 2L+1 and 3L+1 (one at the start of each pass begun, including
the incomplete fourth pass; for a one-item source every pull starts a pass). -/
theorem infinite_epochs_three_passes_plus_two (d e : α) (es : List α) :
    makeInfiniteEpochs (d :: e :: es) (3 * (d :: e :: es).length + 2) =
      (Tok.newEpoch :: (d :: e :: es).map Tok.batch) ++
      ((Tok.newEpoch :: (d :: e :: es).map Tok.batch) ++
       ((Tok.newEpoch :: (d :: e :: es).map Tok.batch) ++
        [Tok.newEpoch, Tok.batch d, Tok.batch e])) := by
  unfold makeInfiniteEpochs
  have h1 : 3 * (d :: e :: es).length + 2
      = (e :: es).length + 1 + (2 * es.length + 6) := by
    simp only [List.length_cons]; omega
  rw [h1, epochsPull_wrap]
  have h2 : 2 * es.length + 6 = (e :: es).length + 1 + (es.length + 4) := by
    simp only [List.length_cons]; omega
  rw [h2, epochsPull_wrap]
  have h3 : es.length + 4 = (e :: es).length + 1 + 2 := by
    simp only [List.length_cons]
  rw [h3, epochsPull_wrap]
  have h4 : epochsPull (d :: e :: es) 2 [] =
      [Tok.newEpoch, Tok.batch d, Tok.batch e] := rfl
  rw [h4]
  simp [List.cons_append, List.append_assoc]

/- ### Claim C9 -/

/-- Claim C9, counterexample: a negative trigger iteration is not rejected.
Registering through the operator input with trigger text `-5` appends the
event with trigger −5, because Python's `int` parses negative numbers. -/
theorem negative_trigger_accepted :
    handleEventRegistration "save@-5" [] = Except.ok ("", [("save", -5)]) ∧
    tryRegister "save" "-5" [] = [("save", -5)] :=
  ⟨rfl, rfl⟩

/-- Claim C9, amended: registration fails (is logged and appends nothing)
exactly when the trigger text cannot be parsed as a Python integer; any
parseable integer — negative values included — is appended, duplicates
allowed.  A negative-trigger event is harmless: at every resolve it is
pruned as stale and never appears pending or firing.  Stated for every
trigger text and schedule: the unparseable case leaves the schedule
unchanged, every parseable integer (of either sign) is appended, and a
negative trigger is then dropped at every resolve. -/
theorem register_appends_iff_parseable (what whenStr : String)
    (events : List Event) (step : Nat) :
    (pythonInt whenStr = none → tryRegister what whenStr events = events) ∧
    (∀ n : Int, pythonInt whenStr = some n →
      tryRegister what whenStr events = events ++ [(what, n)]) ∧
    (∀ n : Int, pythonInt whenStr = some n → n < 0 →
      (what, n) ∉ pruneEvents (events ++ [(what, n)]) step ∧
      (what, n) ∉ firingEvents (events ++ [(what, n)]) step) := by
  refine ⟨fun hp => by simp [tryRegister, hp],
    fun n hp => by simp [tryRegister, hp], fun n hp hneg => ⟨?_, ?_⟩⟩
  · simp only [pruneEvents, List.mem_filter, decide_eq_true_eq]
    rintro ⟨-, hle⟩
    omega
  · simp only [firingEvents, List.mem_filter, decide_eq_true_eq]
    rintro ⟨-, heq⟩
    omega

/- ### Claim C10 -/

/-- Claim C10: before `train` has been called, the iteration accessors
return the Python `None` rather than failing, while the configuration and
command accessors raise a `RuntimeError` carrying the not-setup message. -/
theorem accessors_before_setup :
    get_global_step initialGlobals = none ∧
    get_iteration initialGlobals = none ∧
    get_cfg initialGlobals = Except.error notSetupMsg ∧
    get_cmd initialGlobals = Except.error notSetupMsg :=
  ⟨rfl, rfl, rfl, rfl⟩
